import Mathlib

/-!
Verification of `DCS_reset_mouse.py` (repository 132nd-Dingle/DCS-mouse-reset).

The program is a single-file utility: it loads a config file, enumerates
joysticks, validates the configured device/button indices, and runs an
event loop that recenters the mouse cursor when the configured joystick
button is released.

Shallow embedding conventions:
  * Python floats are modelled exactly by rationals (`ℚ`); the numeric
    claims checked here do not depend on binary rounding of doubles.
  * Python strings manipulated by the config parser are modelled as
    `List Char`.
  * `sys.exit(1)` / uncaught exceptions are modelled by explicit error
    constructors; side effects (cursor moves, log lines, sleeps) are
    modelled as traces of `Action`s.
-/

deriving instance DecidableEq for Except

namespace DCSMouse

/-- Python `int(x)` on a (rational-modelled) float: truncation toward zero. -/
def pyTrunc (q : ℚ) : ℤ := if 0 ≤ q then ⌊q⌋ else -⌊-q⌋

/-- A device as reported by pygame: `joystick.get_name()` / `get_numbuttons()`. -/
structure JoyDevice where
  name : String
  buttons : ℕ
deriving DecidableEq, Repr

/-- `device_info` record built by `log_available_devices`:
`{"index": i, "name": ..., "buttons": ...}`. -/
structure DeviceInfo where
  index : ℕ
  name : String
  buttons : ℕ
deriving DecidableEq, Repr

/-- The `settings` dict built by `load_config`. -/
structure Settings where
  device : ℤ
  button : ℤ
  center_x : ℚ
  center_y : ℚ
deriving DecidableEq, Repr

/-- Python `str.strip()`: remove leading and trailing whitespace. -/
def pyStrip (cs : List Char) : List Char :=
  ((cs.dropWhile Char.isWhitespace).reverse.dropWhile Char.isWhitespace).reverse

/-- `v.split(';')[0]`: the text before the first `;` (the whole string when
there is no `;`). -/
def beforeSemi (cs : List Char) : List Char := cs.takeWhile (· ≠ ';')

/-- `v.split(';')[0].strip()` as applied by `load_config` to every raw
configuration value. -/
def stripComment (cs : List Char) : List Char := pyStrip (beforeSemi cs)

/-- Value of a nonempty digit string. -/
def digitsVal (cs : List Char) : ℕ :=
  cs.foldl (fun a c => 10 * a + (c.toNat - '0'.toNat)) 0

/-- Python `int(s)` on an already-stripped string: optional sign followed by
a nonempty run of decimal digits; anything else raises `ValueError`
(modelled as `none`). -/
def pyInt (cs : List Char) : Option ℤ :=
  match cs with
  | [] => none
  | c :: rest =>
      if c = '-' then
        if rest ≠ [] ∧ rest.all Char.isDigit then
          some (-(digitsVal rest : ℤ))
        else none
      else if c = '+' then
        if rest ≠ [] ∧ rest.all Char.isDigit then
          some (digitsVal rest : ℤ)
        else none
      else if (c :: rest).all Char.isDigit then
        some (digitsVal (c :: rest) : ℤ)
      else none

/-- Value of `intPart.fracPart` as a rational. -/
def decimalVal (intPart fracPart : List Char) : ℚ :=
  (digitsVal intPart : ℚ) + (digitsVal fracPart : ℚ) / (10 : ℚ) ^ fracPart.length

/-- Unsigned decimal literal accepted by Python `float`: `digits`,
`digits.`, `.digits` or `digits.digits` (at least one digit overall, at
most one dot).  `cs.dropWhile (· ≠ '.')` is empty when there is no dot
and otherwise starts with the first dot, whose tail is the fractional
part. -/
def pyFloatBody (cs : List Char) : Option ℚ :=
  let intPart := cs.takeWhile (· ≠ '.')
  let rest := cs.dropWhile (· ≠ '.')
  if rest = [] then
    if cs ≠ [] ∧ cs.all Char.isDigit then some (digitsVal cs : ℚ) else none
  else
    let frac := rest.tail
    if (intPart ≠ [] ∨ frac ≠ []) ∧ intPart.all Char.isDigit ∧
        frac.all Char.isDigit then
      some (decimalVal intPart frac)
    else none

/-- Python `float(s)` on an already-stripped string: optional sign then a
decimal literal (the exotic forms `inf`, `nan` and exponents are not used
by this program's configs and are not modelled). -/
def pyFloat (cs : List Char) : Option ℚ :=
  match cs with
  | [] => none
  | c :: rest =>
      if c = '-' then (pyFloatBody rest).map Neg.neg
      else if c = '+' then pyFloatBody rest
      else pyFloatBody (c :: rest)

/-- The raw text of the four configuration values as the `configparser`
hands them to `load_config`; `none` models a missing section or key
(Python `KeyError`). -/
structure RawConfig where
  device : Option (List Char)
  button : Option (List Char)
  center_x : Option (List Char)
  center_y : Option (List Char)

/-- Error taxonomy of `load_config`: each constructor corresponds to a
`logging.error` followed by `sys.exit(1)`. -/
inductive LoadError where
  | configMissing
  | configKeyMissing
  | configValueInvalid
deriving DecidableEq, Repr

/-- `config["..."]["key"]`: a missing section or key raises `KeyError`. -/
def getKey (v : Option (List Char)) : Except LoadError (List Char) :=
  match v with
  | none => .error .configKeyMissing
  | some s => .ok s

/-- `int(v.split(';')[0].strip())`: comment-stripped parse of an integer
value; `ValueError` is modelled as `configValueInvalid`. -/
def parseIntField (v : List Char) : Except LoadError ℤ :=
  match pyInt (stripComment v) with
  | none => .error .configValueInvalid
  | some n => .ok n

/-- `float(v.split(';')[0].strip())`: comment-stripped parse of a float
value. -/
def parseFloatField (v : List Char) : Except LoadError ℚ :=
  match pyFloat (stripComment v) with
  | none => .error .configValueInvalid
  | some x => .ok x

/-- `load_config`: `none` models `config.read` failing (file missing or
unreadable).  The four values are evaluated in the source order
device, button, center_x, center_y; then the range check
`0.0 <= center_x <= 1.0 and 0.0 <= center_y <= 1.0` runs, raising
`ValueError` when it fails. -/
def load_config : Option RawConfig → Except LoadError Settings
  | none => .error .configMissing
  | some c =>
      match getKey c.device with
      | .error e => .error e
      | .ok dv =>
      match parseIntField dv with
      | .error e => .error e
      | .ok device =>
      match getKey c.button with
      | .error e => .error e
      | .ok bv =>
      match parseIntField bv with
      | .error e => .error e
      | .ok button =>
      match getKey c.center_x with
      | .error e => .error e
      | .ok xv =>
      match parseFloatField xv with
      | .error e => .error e
      | .ok cx =>
      match getKey c.center_y with
      | .error e => .error e
      | .ok yv =>
      match parseFloatField yv with
      | .error e => .error e
      | .ok cy =>
      if 0 ≤ cx ∧ cx ≤ 1 ∧ 0 ≤ cy ∧ cy ≤ 1 then
        .ok ⟨device, button, cx, cy⟩
      else
        .error .configValueInvalid

/-- `log_available_devices`: returns `False` (here `none`) and logs
"No joysticks detected." when no joystick is attached; otherwise returns
the list of `DeviceInfo` records and logs one line per device. -/
def log_available_devices (js : List JoyDevice) :
    Option (List DeviceInfo) × List String :=
  if js.length < 1 then
    (none, ["No joysticks detected."])
  else
    (some (js.enum.map fun p => ⟨p.1, p.2.name, p.2.buttons⟩),
     (toString js.length ++ " joystick(s) detected:") ::
       js.enum.map fun p =>
         "Joystick " ++ toString p.1 ++ ": " ++ p.2.name ++ " with " ++
           toString p.2.buttons ++ " button(s)")

/-- Python list indexing `l[i]`: a negative `i` counts from the end; an
index out of range raises `IndexError` (`none`). -/
def pyIndex {α : Type} (l : List α) (i : ℤ) : Option α :=
  let j : ℤ := if i < 0 then (l.length : ℤ) + i else i
  if 0 ≤ j ∧ j < (l.length : ℤ) then l.get? j.toNat else none

/-- Outcome of `validate_config`: the two `sys.exit(1)` branches, success,
or an uncaught `IndexError` from `devices_info[device_index]` (possible
only for a sufficiently negative `device_index`). -/
inductive ValidateResult where
  | ok
  | deviceIndexInvalid
  | buttonIndexInvalid
  | pythonIndexError
deriving DecidableEq, Repr

/-- `validate_config`: exits when `device_index >= len(devices_info)`,
otherwise looks up `devices_info[device_index]` (Python indexing) and
exits when `button_index >= joystick_info["buttons"]`. -/
def validate_config (s : Settings) (devs : List DeviceInfo) : ValidateResult :=
  if (devs.length : ℤ) ≤ s.device then .deviceIndexInvalid
  else
    match pyIndex devs s.device with
    | none => .pythonIndexError
    | some d => if (d.buttons : ℤ) ≤ s.button then .buttonIndexInvalid else .ok

/-- Observable actions of the program: log lines, redirected prints,
cursor placements and sleeps. -/
inductive Action where
  | logInfo (msg : String)
  | logError (msg : String)
  | printOut (msg : String)
  | setCursor (x y : ℤ)
  | sleepMs (n : ℕ)
deriving DecidableEq, Repr

/-- `center_mouse(center_x_frac, center_y_frac)` with the screen metrics
`GetSystemMetrics` returned: moves to `(0, 0)`, prints, sleeps 50 ms,
moves to `(int(w*fx), int(h*fy))`, prints. -/
def center_mouse (fx fy : ℚ) (w h : ℤ) : List Action :=
  let second_x := pyTrunc ((w : ℚ) * fx)
  let second_y := pyTrunc ((h : ℚ) * fy)
  [ .setCursor 0 0,
    .printOut "Mouse moved to initial position: (0, 0)",
    .sleepMs 50,
    .setCursor second_x second_y,
    .printOut ("Mouse moved to second position: (" ++ toString second_x ++
      ", " ++ toString second_y ++ ")") ]

/-- The cursor placements contained in a trace, in order. -/
def cursorMoves (as : List Action) : List (ℤ × ℤ) :=
  as.filterMap fun a =>
    match a with
    | .setCursor x y => some (x, y)
    | _ => none

/-- Events delivered by `pygame.event.get()` that the loop inspects. -/
inductive Event where
  | joyButtonUp (button : ℤ)
  | quit
deriving DecidableEq, Repr

/-- Handling of one event in the body of the `for event in pygame.event.get()`
loop: a `JOYBUTTONUP` of the configured button logs, prints and calls
`center_mouse`; any other button does nothing; `QUIT` logs and prints only. -/
def processEvent (s : Settings) (w h : ℤ) (e : Event) : List Action :=
  match e with
  | .joyButtonUp b =>
      if b = s.button then
        let m := "Button " ++ toString b ++ " released!"
        [.logInfo m, .printOut m] ++ center_mouse s.center_x s.center_y w h
      else []
  | .quit =>
      [.logInfo "Quit event received.", .printOut "Quit event received."]

/-- One iteration of the `while True` loop: handle every pending event,
then `time.sleep(0.1)`. -/
def iteration (s : Settings) (w h : ℤ) (events : List Event) : List Action :=
  (events.map (processEvent s w h)).flatten ++ [.sleepMs 100]

/-- The event loop over a prefix of iterations (one event batch per
polling round); the loop itself never terminates, so every batch is
processed. -/
def runLoop (s : Settings) (w h : ℤ) (batches : List (List Event)) :
    List Action :=
  (batches.map (iteration s w h)).flatten

/-- Startup outcome of `main` up to entering the event loop. -/
inductive StartupOutcome where
  | configExit (e : LoadError)
  | noDevicesExit
  | validateExit (r : ValidateResult)
  | enterLoop (s : Settings)
deriving DecidableEq, Repr

/-- `main`'s startup sequence: `load_config()`, then
`log_available_devices()`, then the emptiness check (`sys.exit(1)` with
"Exiting: No joysticks available."), then `validate_config`. -/
def mainStartup (cfg : Option RawConfig) (js : List JoyDevice) :
    StartupOutcome :=
  match load_config cfg with
  | .error e => .configExit e
  | .ok s =>
      match (log_available_devices js).1 with
      | none => .noDevicesExit
      | some devs =>
          match validate_config s devs with
          | .ok => .enterLoop s
          | r => .validateExit r

/-- `round` as the spec's target formula reads: mathematical rounding of
`width*fracX` to the nearest integer.  (Defined from the spec's words,
to compare against the code's `int(...)` truncation.) -/
def specRound (q : ℚ) : ℤ := round q

/-! ## Theorems -/

/-- C1 (counterexample): at `fracX = fracY = 1/2` on a 3×3 screen the code
truncates `3 * 0.5 = 1.5` to `1`, while the claimed formula
`round(width*fracX)` gives `2`; so the cursor moves produced by
`center_mouse` are not `[(0,0), (round(w*fx), round(h*fy))]`. -/
theorem center_mouse_not_round :
    cursorMoves (center_mouse (1/2) (1/2) 3 3) ≠
      [(0, 0), (specRound ((3 : ℚ) * (1/2)), specRound ((3 : ℚ) * (1/2)))] := by
  have h1 : cursorMoves (center_mouse (1/2) (1/2) 3 3) = [(0, 0), (1, 1)] := by
    simp only [center_mouse, cursorMoves, List.filterMap]
    norm_num [pyTrunc]
  have h2 : specRound ((3 : ℚ) * (1/2)) = 2 := by
    norm_num [specRound, round_eq]
  rw [h1, h2]
  decide

/-- C1 (amended): for every `fracX`, `fracY` in `[0,1]` and all screen
metrics, `center_mouse` moves the cursor to `(0,0)` and then to the
target `(int(width*fracX), int(height*fracY))` — truncation toward zero,
not rounding to nearest. -/
theorem center_mouse_target_trunc (fx fy : ℚ) (w h : ℤ)
    (hx0 : 0 ≤ fx) (hx1 : fx ≤ 1) (hy0 : 0 ≤ fy) (hy1 : fy ≤ 1) :
    cursorMoves (center_mouse fx fy w h) =
      [(0, 0), (pyTrunc ((w : ℚ) * fx), pyTrunc ((h : ℚ) * fy))] := by
  simp [center_mouse, cursorMoves]

/-- Witness for `center_mouse_target_trunc` at `fx = fy = 1/2`, `w = h = 3`. -/
theorem center_mouse_target_trunc_witness :
    cursorMoves (center_mouse (1/2) (1/2) 3 3) =
      [(0, 0), (pyTrunc ((3 : ℚ) * (1/2)), pyTrunc ((3 : ℚ) * (1/2)))] :=
  center_mouse_target_trunc (1/2) (1/2) 3 3 (by norm_num) (by norm_num)
    (by norm_num) (by norm_num)

/-- C4: on every invocation `center_mouse` places the cursor at `(0,0)`
first (index 0 of its action trace), sleeps 50 ms (index 2), and only
then places it at the computed target (index 3); the trace — and hence
the unconditional `(0,0)` visit — is the same for every input, in
particular it does not depend on the current cursor position (which the
code never reads), so the origin hop happens even when the target equals
the current position. -/
theorem center_mouse_origin_first (fx fy : ℚ) (w h : ℤ) :
    (center_mouse fx fy w h)[0]? = some (.setCursor 0 0) ∧
    (center_mouse fx fy w h)[2]? = some (.sleepMs 50) ∧
    (center_mouse fx fy w h)[3]? =
      some (.setCursor (pyTrunc ((w : ℚ) * fx)) (pyTrunc ((h : ℚ) * fy))) ∧
    cursorMoves (center_mouse fx fy w h) =
      [(0, 0), (pyTrunc ((w : ℚ) * fx), pyTrunc ((h : ℚ) * fy))] := by
  refine ⟨rfl, rfl, rfl, ?_⟩
  simp [center_mouse, cursorMoves]

/-- C10: for fractions in `[0,1]` and non-negative screen metrics, the
target coordinates `center_mouse` computes stay within the screen:
`0 ≤ second_x ≤ width` and `0 ≤ second_y ≤ height`. -/
theorem center_mouse_in_bounds (fx fy : ℚ) (w h : ℤ)
    (hx0 : 0 ≤ fx) (hx1 : fx ≤ 1) (hy0 : 0 ≤ fy) (hy1 : fy ≤ 1)
    (hw : 0 ≤ w) (hh : 0 ≤ h) :
    ∃ tx ty, cursorMoves (center_mouse fx fy w h) = [(0, 0), (tx, ty)] ∧
      0 ≤ tx ∧ tx ≤ w ∧ 0 ≤ ty ∧ ty ≤ h := by
  have bounds : ∀ (f : ℚ) (m : ℤ), 0 ≤ f → f ≤ 1 → 0 ≤ m →
      0 ≤ pyTrunc ((m : ℚ) * f) ∧ pyTrunc ((m : ℚ) * f) ≤ m := by
    intro f m h0 h1 hm
    have hm' : (0 : ℚ) ≤ (m : ℚ) := by exact_mod_cast hm
    have hprod : (0 : ℚ) ≤ (m : ℚ) * f := mul_nonneg hm' h0
    have hle : (m : ℚ) * f ≤ (m : ℚ) := mul_le_of_le_one_right hm' h1
    have htr : pyTrunc ((m : ℚ) * f) = ⌊(m : ℚ) * f⌋ := if_pos hprod
    constructor
    · rw [htr]; exact Int.floor_nonneg.mpr hprod
    · rw [htr]
      calc ⌊(m : ℚ) * f⌋ ≤ ⌊(m : ℚ)⌋ := Int.floor_le_floor hle
        _ = m := Int.floor_intCast m
  obtain ⟨hx, hx'⟩ := bounds fx w hx0 hx1 hw
  obtain ⟨hy, hy'⟩ := bounds fy h hy0 hy1 hh
  exact ⟨pyTrunc ((w : ℚ) * fx), pyTrunc ((h : ℚ) * fy),
    by simp [center_mouse, cursorMoves], hx, hx', hy, hy'⟩

/-- Witness for `center_mouse_in_bounds` at `fx = fy = 1/2`, `w = h = 3`. -/
theorem center_mouse_in_bounds_witness :
    ∃ tx ty, cursorMoves (center_mouse (1/2) (1/2) 3 3) = [(0, 0), (tx, ty)] ∧
      0 ≤ tx ∧ tx ≤ 3 ∧ 0 ≤ ty ∧ ty ≤ 3 :=
  center_mouse_in_bounds (1/2) (1/2) 3 3 (by norm_num) (by norm_num)
    (by norm_num) (by norm_num) (by norm_num) (by norm_num)

/-- If the device index is at least the device count, `pyIndex` fails. -/
lemma pyIndex_none_of_length_le {α : Type} (l : List α) (i : ℤ)
    (h : (l.length : ℤ) ≤ i) : pyIndex l i = none := by
  have h0 : ¬ i < 0 := by
    have : (0 : ℤ) ≤ (l.length : ℤ) := Int.natCast_nonneg _
    omega
  simp only [pyIndex, if_neg h0]
  rw [if_neg]
  omega

/-- C2: `validate_config` rejects a device index out of range with
`DeviceIndexInvalid`, and a button index exceeding the selected device's
button count with `ButtonIndexInvalid`; in particular `device = 2` with
only devices 0–1 enumerated, and `device = 0` (3 buttons) with
`button = 5`, both exit fatally. -/
theorem validate_config_upper_bounds (s : Settings) (devs : List DeviceInfo) :
    ((devs.length : ℤ) ≤ s.device →
      validate_config s devs = .deviceIndexInvalid) ∧
    (∀ d, pyIndex devs s.device = some d → (d.buttons : ℤ) < s.button →
      validate_config s devs = .buttonIndexInvalid) ∧
    validate_config ⟨2, 0, 0, 0⟩ [⟨0, "A", 8⟩, ⟨1, "B", 8⟩] =
      .deviceIndexInvalid ∧
    validate_config ⟨0, 5, 0, 0⟩ [⟨0, "A", 3⟩] = .buttonIndexInvalid := by
  refine ⟨?_, ?_, by decide, by decide⟩
  · intro hle
    simp [validate_config, if_pos hle]
  · intro d hd hb
    have hlt : ¬ ((devs.length : ℤ) ≤ s.device) := by
      intro hle
      rw [pyIndex_none_of_length_le devs s.device hle] at hd
      exact Option.noConfusion hd
    simp only [validate_config, if_neg hlt, hd]
    rw [if_pos (le_of_lt hb)]

/-- Witness for `validate_config_upper_bounds`: the two concrete fatal
cases of the claim. -/
theorem validate_config_upper_bounds_witness :
    validate_config ⟨2, 0, 0, 0⟩ [⟨0, "A", 8⟩, ⟨1, "B", 8⟩] =
      .deviceIndexInvalid ∧
    validate_config ⟨0, 5, 0, 0⟩ [⟨0, "A", 3⟩] = .buttonIndexInvalid :=
  ⟨(validate_config_upper_bounds ⟨2, 0, 0, 0⟩
      [⟨0, "A", 8⟩, ⟨1, "B", 8⟩]).1 (by decide),
   (validate_config_upper_bounds ⟨0, 5, 0, 0⟩ [⟨0, "A", 3⟩]).2.1
      ⟨0, "A", 3⟩ (by decide) (by decide)⟩

/-- C9 (counterexample): at the claim's own example — `device = -1` with
zero devices enumerated — validation does not succeed: the check
`device_index >= len(devices_info)` passes (`-1 < 0`), but
`devices_info[-1]` then raises an uncaught `IndexError`, a fatal crash
rather than a success. -/
theorem validate_config_negative_empty_crashes :
    validate_config ⟨-1, 0, 0, 0⟩ [] = .pythonIndexError ∧
    validate_config ⟨-1, 0, 0, 0⟩ [] ≠ .ok := by
  exact ⟨by decide, by decide⟩

/-- C9 (amended): `validate_config` checks only upper bounds, so a
negative device index is never rejected with `DeviceIndexInvalid` and a
negative button index never with `ButtonIndexInvalid`; with `device = -1`
and at least one device enumerated, Python negative indexing selects the
last device and validation succeeds whenever the button upper-bound check
passes.  (With zero devices — or `-device` exceeding the device count —
a negative device index instead raises an uncaught `IndexError`.) -/
theorem validate_config_negative_indices (s : Settings)
    (devs : List DeviceInfo) :
    (s.device < 0 → validate_config s devs ≠ .deviceIndexInvalid) ∧
    (s.button < 0 → validate_config s devs ≠ .buttonIndexInvalid) ∧
    (∀ hne : devs ≠ [], s.device = -1 →
      s.button < ((devs.getLast hne).buttons : ℤ) →
      validate_config s devs = .ok) := by
  refine ⟨?_, ?_, ?_⟩
  · intro hneg
    have hlt : ¬ ((devs.length : ℤ) ≤ s.device) := by
      have : (0 : ℤ) ≤ (devs.length : ℤ) := Int.natCast_nonneg _
      omega
    simp only [validate_config, if_neg hlt]
    cases hidx : pyIndex devs s.device with
    | none => simp
    | some d =>
        by_cases hb : (d.buttons : ℤ) ≤ s.button
        · simp [if_pos hb]
        · simp [if_neg hb]
  · intro hneg
    simp only [validate_config]
    by_cases hle : (devs.length : ℤ) ≤ s.device
    · simp [if_pos hle]
    · simp only [if_neg hle]
      cases hidx : pyIndex devs s.device with
      | none => simp
      | some d =>
          have hb : ¬ ((d.buttons : ℤ) ≤ s.button) := by
            have : (0 : ℤ) ≤ (d.buttons : ℤ) := Int.natCast_nonneg _
            omega
          simp [if_neg hb]
  · intro hne hdev hb
    have hpos : 0 < devs.length := List.length_pos.mpr hne
    have hlt : ¬ ((devs.length : ℤ) ≤ s.device) := by omega
    have hidx : pyIndex devs s.device = some (devs.getLast hne) := by
      simp only [pyIndex, hdev]
      have hneg : (-1 : ℤ) < 0 := by omega
      rw [if_pos hneg]
      have hj : (0 : ℤ) ≤ (devs.length : ℤ) + (-1) ∧
          (devs.length : ℤ) + (-1) < (devs.length : ℤ) := by omega
      rw [if_pos hj]
      have htn : ((devs.length : ℤ) + (-1)).toNat = devs.length - 1 := by
        omega
      rw [htn]
      rw [List.getLast_eq_get devs hne]
      exact List.get?_eq_get _
    simp only [validate_config, if_neg hlt, hidx]
    rw [if_neg (by omega)]

/-- Witness for `validate_config_negative_indices`: `device = -1`,
`button = -3`, one device with 5 buttons — validation succeeds. -/
theorem validate_config_negative_indices_witness :
    validate_config ⟨-1, -3, 0, 0⟩ [⟨0, "A", 5⟩] ≠ .deviceIndexInvalid ∧
    validate_config ⟨-1, -3, 0, 0⟩ [⟨0, "A", 5⟩] ≠ .buttonIndexInvalid ∧
    validate_config ⟨-1, -3, 0, 0⟩ [⟨0, "A", 5⟩] = .ok :=
  ⟨(validate_config_negative_indices ⟨-1, -3, 0, 0⟩ [⟨0, "A", 5⟩]).1
      (by decide),
   (validate_config_negative_indices ⟨-1, -3, 0, 0⟩ [⟨0, "A", 5⟩]).2.1
      (by decide),
   (validate_config_negative_indices ⟨-1, -3, 0, 0⟩ [⟨0, "A", 5⟩]).2.2
      (by decide) rfl (by decide)⟩

/-- C5: with zero joysticks attached, `log_available_devices` logs exactly
"No joysticks detected." and returns a falsy result (`none`), and `main`
— whenever `load_config` succeeded — then exits with code 1
(`noDevicesExit`). -/
theorem no_joysticks_exit :
    log_available_devices [] = (none, ["No joysticks detected."]) ∧
    (∀ js : List JoyDevice, js.length < 1 →
      (log_available_devices js).1 = none) ∧
    (∀ cfg s, load_config cfg = .ok s →
      mainStartup cfg [] = .noDevicesExit) := by
  refine ⟨rfl, ?_, ?_⟩
  · intro js hjs
    have hnil : js = [] := List.length_eq_zero.mp (by omega)
    subst hnil
    rfl
  · intro cfg s hok
    simp [mainStartup, hok, log_available_devices]

/-- Witness for `no_joysticks_exit`: a concrete valid config, no devices. -/
theorem no_joysticks_exit_witness :
    (log_available_devices [⟨"A", 8⟩]).1 ≠ none ∧
    mainStartup (some ⟨some ['0'], some ['0'], some ['1'], some ['0']⟩) [] =
      .noDevicesExit :=
  ⟨by decide,
   no_joysticks_exit.2.2
     (some ⟨some ['0'], some ['0'], some ['1'], some ['0']⟩)
     ⟨0, 0, 1, 0⟩ (by decide)⟩

/-- C6: a `JOYBUTTONUP` event whose button differs from the configured
one produces no actions at all — no cursor move, no log line, no print —
and an iteration consisting only of such events performs nothing beyond
the routine 100 ms polling sleep. -/
theorem nonconfigured_button_no_effect (s : Settings) (w h : ℤ) :
    (∀ b, b ≠ s.button → processEvent s w h (.joyButtonUp b) = []) ∧
    (∀ events : List Event,
      (∀ e ∈ events, ∃ b, e = .joyButtonUp b ∧ b ≠ s.button) →
      iteration s w h events = [.sleepMs 100]) := by
  constructor
  · intro b hb
    simp [processEvent, hb]
  · intro events
    have hnil : (∀ e ∈ events, ∃ b, e = .joyButtonUp b ∧ b ≠ s.button) →
        (events.map (processEvent s w h)).flatten = [] := by
      induction events with
      | nil => intro _; simp
      | cons e rest ih =>
          intro hev
          obtain ⟨b, hb1, hb⟩ := hev e (List.mem_cons_self e rest)
          subst hb1
          simp only [List.map_cons, List.flatten_cons]
          rw [ih fun x hx => hev x (List.mem_cons_of_mem _ hx)]
          simp [processEvent, hb]
    intro hev
    simp [iteration, hnil hev]

/-- Witness for `nonconfigured_button_no_effect`: configured button 3,
events for buttons 1 and 2 only. -/
theorem nonconfigured_button_no_effect_witness :
    processEvent ⟨0, 3, 0, 0⟩ 100 100 (.joyButtonUp 1) = [] ∧
    iteration ⟨0, 3, 0, 0⟩ 100 100 [.joyButtonUp 1, .joyButtonUp 2] =
      [.sleepMs 100] :=
  ⟨(nonconfigured_button_no_effect ⟨0, 3, 0, 0⟩ 100 100).1 1 (by decide),
   (nonconfigured_button_no_effect ⟨0, 3, 0, 0⟩ 100 100).2
     [.joyButtonUp 1, .joyButtonUp 2]
     (by
       intro e he
       simp only [List.mem_cons, List.not_mem_nil, or_false] at he
       rcases he with rfl | rfl
       · exact ⟨1, rfl, by decide⟩
       · exact ⟨2, rfl, by decide⟩)⟩

/-- C7: a quit event only logs (and prints) "Quit event received." —
there is no `break`/`sys.exit` in that branch — and the loop keeps
polling: every batch of events scheduled after the quit iteration is
still processed, exactly as it would be without the quit. -/
theorem quit_event_does_not_stop_loop (s : Settings) (w h : ℤ)
    (bs1 bs2 : List (List Event)) :
    runLoop s w h (bs1 ++ [[Event.quit]] ++ bs2) =
      runLoop s w h bs1 ++
        [.logInfo "Quit event received.", .printOut "Quit event received.",
          .sleepMs 100] ++
        runLoop s w h bs2 := by
  simp [runLoop, iteration, processEvent]

/-- Evaluation of the float parser on the raw value `1.5`. -/
lemma pyFloat_one_point_five :
    pyFloat (stripComment ['1', '.', '5']) = some (3 / 2) := by
  have hsc : stripComment ['1', '.', '5'] = ['1', '.', '5'] := by decide
  have htake : (['1', '.', '5'] : List Char).takeWhile (· ≠ '.') = ['1'] := by
    decide
  have hdrop : (['1', '.', '5'] : List Char).dropWhile (· ≠ '.') =
      ['.', '5'] := by decide
  have hd1 : digitsVal ['1'] = 1 := by decide
  have hd5 : digitsVal ['5'] = 5 := by decide
  rw [hsc]
  simp +decide only [pyFloat, pyFloatBody, htake, hdrop]
  simp +decide [decimalVal, hd1, hd5]
  norm_num

/-- Inversion for `load_config`: a successful load means every key was
present, every value parsed, and the parsed fractions passed the range
check. -/
lemma load_config_ok_inv (c : RawConfig) (s : Settings)
    (h : load_config (some c) = .ok s) :
    ∃ dv bv xv yv,
      c.device = some dv ∧ c.button = some bv ∧
      c.center_x = some xv ∧ c.center_y = some yv ∧
      pyInt (stripComment dv) = some s.device ∧
      pyInt (stripComment bv) = some s.button ∧
      pyFloat (stripComment xv) = some s.center_x ∧
      pyFloat (stripComment yv) = some s.center_y ∧
      0 ≤ s.center_x ∧ s.center_x ≤ 1 ∧ 0 ≤ s.center_y ∧ s.center_y ≤ 1 := by
  obtain ⟨dev, but, cxv, cyv⟩ := c
  cases dev with
  | none => simp [load_config, getKey] at h
  | some dv =>
  cases hd : pyInt (stripComment dv) with
  | none => simp [load_config, getKey, parseIntField, hd] at h
  | some dn =>
  cases but with
  | none => simp [load_config, getKey, parseIntField, hd] at h
  | some bv =>
  cases hb : pyInt (stripComment bv) with
  | none => simp [load_config, getKey, parseIntField, hd, hb] at h
  | some bn =>
  cases cxv with
  | none => simp [load_config, getKey, parseIntField, hd, hb] at h
  | some xv =>
  cases hx : pyFloat (stripComment xv) with
  | none => simp [load_config, getKey, parseIntField, parseFloatField,
      hd, hb, hx] at h
  | some xn =>
  cases cyv with
  | none => simp [load_config, getKey, parseIntField, parseFloatField,
      hd, hb, hx] at h
  | some yv =>
  cases hy : pyFloat (stripComment yv) with
  | none => simp [load_config, getKey, parseIntField, parseFloatField,
      hd, hb, hx, hy] at h
  | some yn =>
  simp only [load_config, getKey, parseIntField, parseFloatField,
    hd, hb, hx, hy] at h
  by_cases hr : 0 ≤ xn ∧ xn ≤ 1 ∧ 0 ≤ yn ∧ yn ≤ 1
  · rw [if_pos hr] at h
    cases h
    exact ⟨dv, bv, xv, yv, rfl, rfl, rfl, rfl, hd, hb, hx, hy,
      hr.1, hr.2.1, hr.2.2.1, hr.2.2.2⟩
  · rw [if_neg hr] at h
    cases h

/-- C3: `load_config` exits fatally (logs, then `sys.exit(1)`) whenever the
config file is missing or unreadable, a required key is absent, a value is
non-numeric, or a parsed `center_x`/`center_y` lies outside `[0,1]`; and
with the concrete value `center_x = 1.5` the startup terminates with
`ConfigValueInvalid` before device enumeration: the outcome is `configExit`
whatever devices are attached. -/
theorem load_config_fatal_cases :
    load_config none = .error .configMissing ∧
    (∀ c : RawConfig,
      c.device = none ∨ c.button = none ∨ c.center_x = none ∨
        c.center_y = none →
      ∃ e, load_config (some c) = .error e) ∧
    (∀ (c : RawConfig) (v : List Char),
      ((c.device = some v ∨ c.button = some v) ∧
          pyInt (stripComment v) = none) ∨
      ((c.center_x = some v ∨ c.center_y = some v) ∧
          pyFloat (stripComment v) = none) →
      ∃ e, load_config (some c) = .error e) ∧
    (∀ (c : RawConfig) (v : List Char) (x : ℚ),
      (c.center_x = some v ∨ c.center_y = some v) →
      pyFloat (stripComment v) = some x → (x < 0 ∨ 1 < x) →
      ∃ e, load_config (some c) = .error e) ∧
    (∀ js, mainStartup
        (some ⟨some ['0'], some ['0'], some ['1', '.', '5'], some ['0']⟩) js =
      .configExit .configValueInvalid) := by
  have herr : ∀ (c : RawConfig),
      (∀ s, load_config (some c) ≠ .ok s) →
      ∃ e, load_config (some c) = .error e := by
    intro c hno
    cases hres : load_config (some c) with
    | error e => exact ⟨e, rfl⟩
    | ok s => exact absurd hres (hno s)
  refine ⟨rfl, ?_, ?_, ?_, ?_⟩
  · intro c hmiss
    refine herr c fun s hok => ?_
    obtain ⟨dv, bv, xv, yv, h1, h2, h3, h4, -⟩ := load_config_ok_inv c s hok
    rcases hmiss with h | h | h | h <;> simp_all
  · intro c v hbad
    refine herr c fun s hok => ?_
    obtain ⟨dv, bv, xv, yv, h1, h2, h3, h4, h5, h6, h7, h8, -⟩ :=
      load_config_ok_inv c s hok
    rcases hbad with ⟨hv | hv, hparse⟩ | ⟨hv | hv, hparse⟩ <;> simp_all
  · intro c v x hv hparse hout
    refine herr c fun s hok => ?_
    obtain ⟨dv, bv, xv, yv, h1, h2, h3, h4, h5, h6, h7, h8, h9, h10, h11, h12⟩ :=
      load_config_ok_inv c s hok
    rcases hv with hv | hv
    · rw [hv] at h3
      cases h3
      rw [hparse] at h7
      cases h7
      rcases hout with hlt | hgt
      · exact absurd h9 (not_le.mpr hlt)
      · exact absurd h10 (not_le.mpr hgt)
    · rw [hv] at h4
      cases h4
      rw [hparse] at h8
      cases h8
      rcases hout with hlt | hgt
      · exact absurd h11 (not_le.mpr hlt)
      · exact absurd h12 (not_le.mpr hgt)
  · intro js
    have hd : pyInt (stripComment ['0']) = some 0 := by decide
    have hy : pyFloat (stripComment ['0']) = some 0 := by decide
    have hload : load_config
        (some ⟨some ['0'], some ['0'], some ['1', '.', '5'], some ['0']⟩) =
        .error .configValueInvalid := by
      simp only [load_config, getKey, parseIntField, parseFloatField, hd, hy,
        pyFloat_one_point_five]
      norm_num
    simp [mainStartup, hload]

/-- Witness for `load_config_fatal_cases`: a missing key, a non-numeric
value, an out-of-range `center_x = 1.5`, and the startup outcome at that
same config, all at concrete inputs. -/
theorem load_config_fatal_cases_witness :
    (∃ e, load_config
        (some ⟨none, some ['0'], some ['1'], some ['0']⟩) = .error e) ∧
    (∃ e, load_config
        (some ⟨some ['x'], some ['0'], some ['1'], some ['0']⟩) = .error e) ∧
    (∃ e, load_config
        (some ⟨some ['0'], some ['0'], some ['1', '.', '5'], some ['0']⟩) =
      .error e) ∧
    mainStartup
        (some ⟨some ['0'], some ['0'], some ['1', '.', '5'], some ['0']⟩) [] =
      .configExit .configValueInvalid :=
  ⟨load_config_fatal_cases.2.1 ⟨none, some ['0'], some ['1'], some ['0']⟩
      (Or.inl rfl),
   load_config_fatal_cases.2.2.1
      ⟨some ['x'], some ['0'], some ['1'], some ['0']⟩ ['x']
      (Or.inl ⟨Or.inl rfl, by decide⟩),
   load_config_fatal_cases.2.2.2.1
      ⟨some ['0'], some ['0'], some ['1', '.', '5'], some ['0']⟩
      ['1', '.', '5'] (3 / 2) (Or.inl rfl) pyFloat_one_point_five
      (by norm_num),
   load_config_fatal_cases.2.2.2.2 []⟩

/-- `takeWhile` keeps a list none of whose elements hit the stop
character. -/
lemma beforeSemi_eq_self (pre : List Char) (h : ';' ∉ pre) :
    beforeSemi pre = pre := by
  unfold beforeSemi
  rw [List.takeWhile_eq_self_iff]
  intro a ha
  simp only [ne_eq, decide_eq_true_eq]
  exact fun hc => h (hc ▸ ha)

/-- `takeWhile` truncates exactly at the first `;`. -/
lemma beforeSemi_append (pre post : List Char) (h : ';' ∉ pre) :
    beforeSemi (pre ++ ';' :: post) = pre := by
  induction pre with
  | nil => simp [beforeSemi, List.takeWhile_cons]
  | cons a l ih =>
      have ha : a ≠ ';' := fun hc => h (hc ▸ List.mem_cons_self a l)
      have hl : ';' ∉ l := fun hc => h (List.mem_cons_of_mem a hc)
      simp only [List.cons_append, beforeSemi, List.takeWhile_cons, ne_eq,
        decide_eq_true_eq] at ih ⊢
      rw [if_pos ha, ih hl]

/-- C8: every configuration value is comment-stripped before parsing: for
a raw value `pre ++ ";" ++ post` whose `pre` holds no `;`, what reaches
the numeric parser is exactly `pre` with surrounding whitespace removed,
and the integer and float field parsers used by `load_config` for
`device`/`button` and `center_x`/`center_y` give the same result as on
the comment-free value. -/
theorem inline_comment_stripped (pre post : List Char) (h : ';' ∉ pre) :
    stripComment (pre ++ ';' :: post) = pyStrip pre ∧
    parseIntField (pre ++ ';' :: post) = parseIntField pre ∧
    parseFloatField (pre ++ ';' :: post) = parseFloatField pre := by
  have h1 : stripComment (pre ++ ';' :: post) = pyStrip pre := by
    simp [stripComment, beforeSemi_append pre post h]
  have h2 : stripComment pre = pyStrip pre := by
    simp [stripComment, beforeSemi_eq_self pre h]
  refine ⟨h1, ?_, ?_⟩
  · simp [parseIntField, h1, h2]
  · simp [parseFloatField, h1, h2]

/-- Witness for `inline_comment_stripped` at the raw value
`" 5 ; comment"`. -/
theorem inline_comment_stripped_witness :
    stripComment ([' ', '5', ' '] ++ ';' :: [' ', 'c']) =
      pyStrip [' ', '5', ' '] ∧
    parseIntField ([' ', '5', ' '] ++ ';' :: [' ', 'c']) =
      parseIntField [' ', '5', ' '] ∧
    parseFloatField ([' ', '5', ' '] ++ ';' :: [' ', 'c']) =
      parseFloatField [' ', '5', ' '] :=
  inline_comment_stripped [' ', '5', ' '] [' ', 'c'] (by decide)

end DCSMouse
